import Mathlib

/-!
Shallow embedding of the D3D11 shader-program component of the CaveGame
renderer (`src/Engine/Source/Renderer/Platform/D3D11/D3D11Shader.cpp`),
together with theorems settling the specification claims about it.

Conventions of the embedding:
* `HRESULT` values are modelled as `Int`; the `SUCCEEDED(hr)` macro is
  `0 ≤ hr`.
* Native pointers/handles are modelled as `Option Nat`, with `none` playing
  the role of `nullptr`.
* Byte buffers (`ID3DBlob` contents, `Buffer`, bytecode payloads) are
  modelled as `List Nat`.
* The foreign D3D11/D3DCompiler entry points (`D3DCompile`,
  `CreateVertexShader`, `CreatePixelShader`) are modelled as an explicit
  environment record `RenderEnv`, since they are external collaborators.
* `CAVE_ASSERT` / `CAVE_VERIFY` (defined in a core header that is not part
  of the available sources) are modelled from the spec: a failed assertion
  is a fatal contract violation that aborts the surrounding computation,
  so fallible routines return `Option`, with `none` meaning "aborted via a
  fatal contract failure".
-/

namespace CaveGame

/-- The `ShaderStage` enumeration from the engine's shader description
header. The header is not among the sources; the spec describes the kind
set as the closed enumeration {Vertex, Fragment}. A C++ enum variable can
still physically hold a tag value outside the declared enumerators, which
the `OutOfEnum` constructor models (carrying the raw tag value). -/
inductive ShaderStage where
  | Vertex
  | Fragment
  | OutOfEnum (value : Nat)
  deriving DecidableEq, Repr

/-- The `ShaderSourceType` enumeration: how a stage's bytecode is obtained.
Modelled from the spec: origin kind is the closed set
{SourceCode, Bytecode}; `OutOfEnum` models a tag value outside it. -/
inductive ShaderSourceType where
  | SourceCode
  | Bytecode
  | OutOfEnum (value : Nat)
  deriving DecidableEq, Repr

/-- `ShaderStageDescription`: one stage's compilation input.
Modelled from the spec: the defining header is not among the sources; the
fields are those the implementation file reads (`stage`, `source_type`,
`source_code`, `source_bytecode_data`, `source_bytecode_size`). -/
structure ShaderStageDescription where
  stage : ShaderStage
  source_type : ShaderSourceType
  source_code : String := ""
  source_bytecode_data : List Nat := []
  source_bytecode_size : Nat := 0
  deriving DecidableEq, Repr

/-- `ShaderDescription`: the ordered collection of stage descriptions a
program is built from. -/
structure ShaderDescription where
  stages : List ShaderStageDescription
  deriving DecidableEq, Repr

/-- `D3D11Shader::ShaderModule`: stage kind plus the opaque native handle.
The handle is `Option Nat`; `none` is `nullptr` (the zero-initialised
value of `ShaderModule shader_module = {}`). -/
structure ShaderModule where
  stage : ShaderStage
  handle : Option Nat := none
  deriving DecidableEq, Repr

/-- `D3D11Shader::ShaderCompilationResult`.
Modelled from the spec: the struct lives in the missing header; per the
spec the diagnostic text is copied into caller-owned storage, so
`error_message` is an owning `String` (empty when no diagnostics). -/
structure ShaderCompilationResult where
  result : Int := 0
  bytecode : List Nat := []
  error_message : String := ""
  deriving DecidableEq, Repr

/-- What one call to the foreign `D3DCompile` produces: an optional
bytecode blob, an optional diagnostic blob, and an `HRESULT`. -/
structure NativeCompileOutput where
  bytecode_blob : Option (List Nat)
  error_message_blob : Option String
  result_code : Int
  deriving DecidableEq, Repr

/-- The foreign D3D11 backend: `D3DCompile` (keyed by source text,
entry-point name and target profile, exactly the data the call site
passes) and the two per-stage native creation calls, each returning an
`HRESULT` and an out-pointer. -/
structure RenderEnv where
  d3dCompile : String → String → String → NativeCompileOutput
  createVertexShader : List Nat → Nat → Int × Option Nat
  createPixelShader : List Nat → Nat → Int × Option Nat

/-- Documented contract of the D3D11 device creation calls: when the
returned `HRESULT` is a success, the out-pointer has been set (non-null). -/
def RenderEnv.WellFormedDevice (env : RenderEnv) : Prop :=
  (∀ data size, 0 ≤ (env.createVertexShader data size).1 →
    (env.createVertexShader data size).2.isSome) ∧
  (∀ data size, 0 ≤ (env.createPixelShader data size).1 →
    (env.createPixelShader data size).2.isSome)

/-- `get_shader_entrypoint_name` (D3D11Shader.cpp:63-73): a pure closed
mapping from stage kind to entry-point name; the fall-through for an
unhandled kind hits `CAVE_ASSERT(false)`, modelled as `none`. -/
def get_shader_entrypoint_name : ShaderStage → Option String
  | .Vertex => some "cave_vertex_main"
  | .Fragment => some "cave_fragment_main"
  | .OutOfEnum _ => none

/-- `get_shader_target` (D3D11Shader.cpp:75-85): a pure closed mapping
from stage kind to target-profile string; the fall-through for an
unhandled kind hits `CAVE_ASSERT(false)`, modelled as `none`. -/
def get_shader_target : ShaderStage → Option String
  | .Vertex => some "vs_5_0"
  | .Fragment => some "ps_5_0"
  | .OutOfEnum _ => none

/-- Observable actions `compile_shader_module` performs on the two
compiler-owned blobs, in program order. -/
inductive CompileEvent where
  | copyBytecode (bytes : List Nat)
  | releaseBytecodeBlob
  | captureDiagnostic (message : String)
  | releaseDiagnosticBlob
  deriving DecidableEq, Repr

/-- Body of `D3D11Shader::compile_shader_module` after the `D3DCompile`
call returns (D3D11Shader.cpp:108-123): if the bytecode blob is non-null,
copy it into the owned `Buffer` and release the blob; if the diagnostic
blob is non-null, capture its text into the result's owned storage and
release the blob; store the `HRESULT`. The event list records those blob
actions in program order. -/
def absorb_native_output (native : NativeCompileOutput) :
    ShaderCompilationResult × List CompileEvent :=
  let (bytecode, bytecode_events) :=
    match native.bytecode_blob with
    | some blob => (blob, [CompileEvent.copyBytecode blob,
                           CompileEvent.releaseBytecodeBlob])
    | none => ([], [])
  let (error_message, diagnostic_events) :=
    match native.error_message_blob with
    | some blob => (blob, [CompileEvent.captureDiagnostic blob,
                           CompileEvent.releaseDiagnosticBlob])
    | none => ("", [])
  ({ result := native.result_code, bytecode := bytecode,
     error_message := error_message },
   bytecode_events ++ diagnostic_events)

/-- `D3D11Shader::compile_shader_module` (D3D11Shader.cpp:87-124).
Selects entry point and target (each aborts fatally on an unhandled
kind), invokes the foreign `D3DCompile`, then absorbs the two
compiler-owned blobs via `absorb_native_output`. Returns the
`ShaderCompilationResult` together with the ordered trace of blob
events. -/
def compile_shader_module (env : RenderEnv) (stage : ShaderStage)
    (source_code : String) :
    Option (ShaderCompilationResult × List CompileEvent) := do
  let entrypoint_name ← get_shader_entrypoint_name stage
  let target ← get_shader_target stage
  some (absorb_native_output (env.d3dCompile source_code entrypoint_name target))

/-- The stage-kind dispatch switch at the end of
`D3D11Shader::create_shader_module` (D3D11Shader.cpp:168-189): each
handled kind calls the matching native creation entry point and asserts
`SUCCEEDED` (abort on failure); an unhandled kind matches no case and
falls through, leaving the zero-initialised (null) handle in place. -/
def create_native_stage (env : RenderEnv) (stage : ShaderStage)
    (bytecode_data : List Nat) (bytecode_size : Nat) : Option ShaderModule :=
  match stage with
  | .Vertex =>
    let r := env.createVertexShader bytecode_data bytecode_size
    if 0 ≤ r.1 then some { stage := .Vertex, handle := r.2 } else none
  | .Fragment =>
    let r := env.createPixelShader bytecode_data bytecode_size
    if 0 ≤ r.1 then some { stage := .Fragment, handle := r.2 } else none
  | .OutOfEnum n => some { stage := .OutOfEnum n, handle := none }

/-- The origin dispatch of `D3D11Shader::create_shader_module`
(D3D11Shader.cpp:131-166), which sets `bytecode_data` / `bytecode_size`.
SourceCode origin: assert non-empty source, compile, assert empty
diagnostics, assert `SUCCEEDED`, use the compiled buffer. Bytecode
origin: assert positive payload size, use the payload directly. Any other
origin: `CAVE_VERIFY(false)`. -/
def resolve_stage_payload (env : RenderEnv)
    (description : ShaderStageDescription) : Option (List Nat × Nat) :=
  match description.source_type with
  | .SourceCode =>
    if description.source_code = "" then
      none
    else do
      let (compilation_result, _) ←
        compile_shader_module env description.stage description.source_code
      if compilation_result.error_message ≠ "" then
        none
      else if ¬ (0 ≤ compilation_result.result) then
        none
      else
        some (compilation_result.bytecode,
              compilation_result.bytecode.length)
  | .Bytecode =>
    if description.source_bytecode_size > 0 then
      some (description.source_bytecode_data,
            description.source_bytecode_size)
    else
      none
  | .OutOfEnum _ => none

/-- `D3D11Shader::create_shader_module` (D3D11Shader.cpp:126-194):
resolve the stage's bytecode payload from its origin, then run the
native-creation dispatch switch on the stage kind. -/
def create_shader_module (env : RenderEnv)
    (description : ShaderStageDescription) : Option ShaderModule := do
  let (bytecode_data, bytecode_size) ← resolve_stage_payload env description
  create_native_stage env description.stage bytecode_data bytecode_size

/-- The loop body of the `D3D11Shader` constructor
(D3D11Shader.cpp:16-41): walk the stage descriptions in order; skip a
description whose stage kind already has a module (linear scan of the
accumulated modules); otherwise create a module and append it. A fatal
creation aborts the whole construction. -/
def constructModules (env : RenderEnv) :
    List ShaderStageDescription → List ShaderModule →
    Option (List ShaderModule)
  | [], acc => some acc
  | d :: rest, acc =>
    if ∃ m ∈ acc, m.stage = d.stage then
      constructModules env rest acc
    else
      match create_shader_module env d with
      | none => none
      | some m => constructModules env rest (acc ++ [m])

/-- The `D3D11Shader` constructor: the stored `m_shader_modules` after a
successful construction, `none` when construction aborted fatally. -/
def D3D11Shader_construct (env : RenderEnv)
    (description : ShaderDescription) : Option (List ShaderModule) :=
  constructModules env description.stages []

/-- `D3D11Shader::get_shader_module` (D3D11Shader.cpp:51-61): linear scan,
first module of the requested kind wins, `nullptr` when absent. -/
def get_shader_module : List ShaderModule → ShaderStage → Option Nat
  | [], _ => none
  | m :: rest, stage =>
    if m.stage = stage then m.handle else get_shader_module rest stage

/-- Observable action of the destructor on the native backend. -/
inductive DestroyEvent where
  | release (handle : Nat)
  deriving DecidableEq, Repr

/-- `D3D11Shader::~D3D11Shader` (D3D11Shader.cpp:43-49): release every
stored module's handle, then `clear_and_shrink` the storage. Returns the
ordered release trace and the post-state of `m_shader_modules`.
Modelled from the spec: the `CAVE_D3D11_RELEASE` macro (defined in a
header not among the sources) releases a non-null native handle exactly
once and does nothing for a null handle. -/
def D3D11Shader_destructor (modules : List ShaderModule) :
    List DestroyEvent × List ShaderModule :=
  (modules.filterMap (fun m => m.handle.map DestroyEvent.release), [])

/-! ### Concrete test backends (used to instantiate witnesses) -/

/-- A well-behaved backend: compilation always succeeds with bytecode
`[7, 8]` and no diagnostics; each native creation succeeds with a fixed
non-null handle. -/
def okEnv : RenderEnv where
  d3dCompile := fun _ _ _ =>
    { bytecode_blob := some [7, 8], error_message_blob := none,
      result_code := 0 }
  createVertexShader := fun _ _ => (0, some 11)
  createPixelShader := fun _ _ => (0, some 12)

/-- A backend whose compiler succeeds but emits a non-empty diagnostic
(a compilation warning). -/
def warnEnv : RenderEnv where
  d3dCompile := fun _ _ _ =>
    { bytecode_blob := some [7, 8],
      error_message_blob := some "warning: something", result_code := 0 }
  createVertexShader := fun _ _ => (0, some 11)
  createPixelShader := fun _ _ => (0, some 12)

/-- A backend whose compiler always fails with a failing status and no
blobs. -/
def failEnv : RenderEnv where
  d3dCompile := fun _ _ _ =>
    { bytecode_blob := none, error_message_blob := none, result_code := -1 }
  createVertexShader := fun _ _ => (0, some 11)
  createPixelShader := fun _ _ => (0, some 12)

/-! ### Basic facts about the embedded operations -/

theorem absorb_native_output_result (native : NativeCompileOutput) :
    (absorb_native_output native).1.result = native.result_code := by
  cases hb : native.bytecode_blob <;> cases he : native.error_message_blob <;>
    simp [absorb_native_output, hb, he]

theorem absorb_native_output_bytecode (native : NativeCompileOutput) :
    (absorb_native_output native).1.bytecode = native.bytecode_blob.getD [] := by
  cases hb : native.bytecode_blob <;> cases he : native.error_message_blob <;>
    simp [absorb_native_output, hb, he]

theorem absorb_native_output_error_message (native : NativeCompileOutput) :
    (absorb_native_output native).1.error_message =
      native.error_message_blob.getD "" := by
  cases hb : native.bytecode_blob <;> cases he : native.error_message_blob <;>
    simp [absorb_native_output, hb, he]

theorem compile_shader_module_eq_some (env : RenderEnv) (stage : ShaderStage)
    (source : String) (res : ShaderCompilationResult) (tr : List CompileEvent)
    (h : compile_shader_module env stage source = some (res, tr)) :
    ∃ e t, get_shader_entrypoint_name stage = some e ∧
      get_shader_target stage = some t ∧
      (res, tr) = absorb_native_output (env.d3dCompile source e t) := by
  cases stage with
  | Vertex =>
    refine ⟨"cave_vertex_main", "vs_5_0", rfl, rfl, ?_⟩
    simpa [compile_shader_module, get_shader_entrypoint_name,
      get_shader_target] using h.symm
  | Fragment =>
    refine ⟨"cave_fragment_main", "ps_5_0", rfl, rfl, ?_⟩
    simpa [compile_shader_module, get_shader_entrypoint_name,
      get_shader_target] using h.symm
  | OutOfEnum n =>
    simp [compile_shader_module, get_shader_entrypoint_name] at h

/-! ### Claim C9: entry-point and target mappings -/

/-- C9: the entry-point name and target-profile string are pure functions
of the stage kind alone; they return a fixed non-null string for each
kind of the closed enumeration (Vertex, Fragment), and for any kind
outside that set they terminate via an assertion-style contract failure
(`none`) rather than returning a usable value. -/
theorem c9_stage_mappings_closed :
    get_shader_entrypoint_name ShaderStage.Vertex = some "cave_vertex_main" ∧
    get_shader_entrypoint_name ShaderStage.Fragment = some "cave_fragment_main" ∧
    get_shader_target ShaderStage.Vertex = some "vs_5_0" ∧
    get_shader_target ShaderStage.Fragment = some "ps_5_0" ∧
    (∀ n, get_shader_entrypoint_name (ShaderStage.OutOfEnum n) = none ∧
          get_shader_target (ShaderStage.OutOfEnum n) = none) :=
  ⟨rfl, rfl, rfl, rfl, fun _ => ⟨rfl, rfl⟩⟩

/-! ### Claim C10: out-of-enumeration stage reaching the dispatch switch -/

/-- C10: when `create_shader_module` is reached with a stage kind outside
{Vertex, Fragment} (possible through the precompiled-bytecode origin,
which performs no entry-point lookup), the native-creation dispatch
switch matches no case and falls through without any contract failure:
the returned `ShaderModule` carries the requested stage kind but a null
(`none`) native handle, violating the invariant that a live module's
handle is non-null. -/
theorem c10_out_of_enum_stage_null_handle (env : RenderEnv)
    (desc : ShaderStageDescription) (n : Nat)
    (hstage : desc.stage = ShaderStage.OutOfEnum n)
    (horigin : desc.source_type = ShaderSourceType.Bytecode)
    (hsize : 0 < desc.source_bytecode_size) :
    create_shader_module env desc =
      some { stage := ShaderStage.OutOfEnum n, handle := none } := by
  simp [create_shader_module, resolve_stage_payload, horigin, hstage, hsize,
    create_native_stage]

/-- Witness for C10 at a concrete description. -/
theorem c10_witness :
    create_shader_module okEnv
      { stage := ShaderStage.OutOfEnum 5,
        source_type := ShaderSourceType.Bytecode,
        source_bytecode_data := [1, 2], source_bytecode_size := 2 } =
      some { stage := ShaderStage.OutOfEnum 5, handle := none } :=
  c10_out_of_enum_stage_null_handle okEnv _ 5 rfl rfl (by decide)

/-! ### Claim C7: malformed descriptions abort fatally -/

/-- C7: every malformed stage description — empty source text with a
source-text origin, zero-length payload with a precompiled-bytecode
origin, or an origin kind outside the closed set — makes
`create_shader_module` abort via a fatal contract violation (`none`), so
it never produces a stage module (in particular never one with a null
handle). -/
theorem c7_malformed_description_aborts (env : RenderEnv)
    (desc : ShaderStageDescription)
    (h : (desc.source_type = ShaderSourceType.SourceCode ∧
            desc.source_code = "") ∨
         (desc.source_type = ShaderSourceType.Bytecode ∧
            desc.source_bytecode_size = 0) ∨
         (∃ n, desc.source_type = ShaderSourceType.OutOfEnum n)) :
    create_shader_module env desc = none := by
  rcases h with ⟨ht, hc⟩ | ⟨ht, hs⟩ | ⟨n, ht⟩
  · simp [create_shader_module, resolve_stage_payload, ht, hc]
  · simp [create_shader_module, resolve_stage_payload, ht, hs]
  · simp [create_shader_module, resolve_stage_payload, ht]

/-- Witness for C7: the spec's empty-payload rejection example
`[(Vertex, SourceText, "")]`. -/
theorem c7_witness :
    create_shader_module okEnv
      { stage := ShaderStage.Vertex,
        source_type := ShaderSourceType.SourceCode, source_code := "" } =
      none :=
  c7_malformed_description_aborts okEnv _ (Or.inl ⟨rfl, rfl⟩)

/-! ### Claim C5: bytecode present only on success -/

/-- C5: in the result of `compile_shader_module`, the bytecode buffer is
non-empty only when the status code indicates success, and whenever the
status code is a failure the bytecode buffer is absent (empty). The
hypothesis `hcontract` is the documented `D3DCompile` contract: on a
failing `HRESULT` no bytecode blob is produced. -/
theorem c5_bytecode_only_on_success (env : RenderEnv) (stage : ShaderStage)
    (source : String) (res : ShaderCompilationResult) (tr : List CompileEvent)
    (hcontract : ∀ s e t, (env.d3dCompile s e t).result_code < 0 →
        (env.d3dCompile s e t).bytecode_blob = none)
    (h : compile_shader_module env stage source = some (res, tr)) :
    (res.bytecode ≠ [] → 0 ≤ res.result) ∧
    (res.result < 0 → res.bytecode = []) := by
  obtain ⟨e, t, -, -, habs⟩ :=
    compile_shader_module_eq_some env stage source res tr h
  have hres : res = (absorb_native_output (env.d3dCompile source e t)).1 := by
    rw [← habs]
  subst hres
  constructor
  · intro hne
    by_contra hlt
    push_neg at hlt
    have hblob := hcontract source e t hlt
    rw [absorb_native_output_bytecode, hblob] at hne
    exact hne rfl
  · intro hlt
    rw [absorb_native_output_result] at hlt
    have hblob := hcontract source e t hlt
    rw [absorb_native_output_bytecode, hblob]
    rfl

/-- Witness for C5 at a concrete failing backend. -/
theorem c5_witness :
    ∃ res tr, compile_shader_module failEnv ShaderStage.Vertex "bad" =
        some (res, tr) ∧
      (res.bytecode ≠ [] → 0 ≤ res.result) ∧
      (res.result < 0 → res.bytecode = []) := by
  refine ⟨{ result := -1, bytecode := [], error_message := "" }, [], rfl, ?_⟩
  exact c5_bytecode_only_on_success failEnv ShaderStage.Vertex "bad" _ _
    (fun _ _ _ _ => rfl) rfl

/-! ### Claim C6: diagnostics copied before the blob is released -/

theorem absorb_native_output_capture (native : NativeCompileOutput)
    (msg : String)
    (h : CompileEvent.captureDiagnostic msg ∈ (absorb_native_output native).2) :
    native.error_message_blob = some msg ∧
    List.Sublist [CompileEvent.captureDiagnostic msg,
                  CompileEvent.releaseDiagnosticBlob]
      (absorb_native_output native).2 := by
  cases hb : native.bytecode_blob <;> cases he : native.error_message_blob <;>
    simp [absorb_native_output, hb, he] at h ⊢
  · subst h
    exact ⟨rfl, List.Sublist.refl _⟩
  · subst h
    exact ⟨rfl, List.sublist_append_right
      [CompileEvent.copyBytecode _, CompileEvent.releaseBytecodeBlob] _⟩

/-- C6: whenever an invocation of `compile_shader_module` produces
diagnostic text (a capture event appears in its trace), the diagnostic
text is stored in the caller-owned `ShaderCompilationResult` and the
capture strictly precedes the release of the backend's diagnostic blob
(the two events form a sublist of the trace in that order), so reading
the text after the call never touches released compiler-owned memory. -/
theorem c6_diagnostic_captured_before_release (env : RenderEnv)
    (stage : ShaderStage) (source : String) (res : ShaderCompilationResult)
    (tr : List CompileEvent) (msg : String)
    (h : compile_shader_module env stage source = some (res, tr))
    (hmem : CompileEvent.captureDiagnostic msg ∈ tr) :
    res.error_message = msg ∧
    List.Sublist [CompileEvent.captureDiagnostic msg,
                  CompileEvent.releaseDiagnosticBlob] tr := by
  obtain ⟨e, t, -, -, habs⟩ :=
    compile_shader_module_eq_some env stage source res tr h
  have hres : res = (absorb_native_output (env.d3dCompile source e t)).1 := by
    rw [← habs]
  have htr : tr = (absorb_native_output (env.d3dCompile source e t)).2 := by
    rw [← habs]
  subst hres; subst htr
  obtain ⟨hblob, hsub⟩ := absorb_native_output_capture _ msg hmem
  refine ⟨?_, hsub⟩
  rw [absorb_native_output_error_message, hblob]
  rfl

/-- Witness for C6 at a concrete warning-producing backend. -/
theorem c6_witness :
    compile_shader_module warnEnv ShaderStage.Vertex "code" =
      some ({ result := 0, bytecode := [7, 8],
              error_message := "warning: something" },
            [CompileEvent.copyBytecode [7, 8],
             CompileEvent.releaseBytecodeBlob,
             CompileEvent.captureDiagnostic "warning: something",
             CompileEvent.releaseDiagnosticBlob]) ∧
    ({ result := 0, bytecode := [7, 8],
       error_message := "warning: something" } :
        ShaderCompilationResult).error_message = "warning: something" ∧
    List.Sublist [CompileEvent.captureDiagnostic "warning: something",
                  CompileEvent.releaseDiagnosticBlob]
      [CompileEvent.copyBytecode [7, 8], CompileEvent.releaseBytecodeBlob,
       CompileEvent.captureDiagnostic "warning: something",
       CompileEvent.releaseDiagnosticBlob] := by
  have hmem : CompileEvent.captureDiagnostic "warning: something" ∈
      [CompileEvent.copyBytecode [7, 8], CompileEvent.releaseBytecodeBlob,
       CompileEvent.captureDiagnostic "warning: something",
       CompileEvent.releaseDiagnosticBlob] := by simp
  exact ⟨rfl,
    c6_diagnostic_captured_before_release warnEnv ShaderStage.Vertex "code"
      _ _ "warning: something" rfl hmem⟩

/-! ### Claim C4: compilation warnings (corrected) -/

theorem create_shader_module_sourcecode (env : RenderEnv)
    (desc : ShaderStageDescription) (res : ShaderCompilationResult)
    (tr : List CompileEvent)
    (ht : desc.source_type = ShaderSourceType.SourceCode)
    (hne : desc.source_code ≠ "")
    (hc : compile_shader_module env desc.stage desc.source_code =
      some (res, tr)) :
    create_shader_module env desc =
      if res.error_message ≠ "" then none
      else if ¬ (0 ≤ res.result) then none
      else create_native_stage env desc.stage res.bytecode
        res.bytecode.length := by
  by_cases hmsg : res.error_message = ""
  · by_cases hres : 0 ≤ res.result
    · simp [create_shader_module, resolve_stage_payload, ht, hne, hc, hmsg, hres,
        not_lt.mpr hres]
    · simp [create_shader_module, resolve_stage_payload, ht, hne, hc, hmsg, hres]
  · simp [create_shader_module, resolve_stage_payload, ht, hne, hc, hmsg]

/-- C4 counterexample: a compilation warning (success status `0` together
with non-empty diagnostic text) is fatal, not non-fatal: at this concrete
input the compiler succeeds with diagnostic text, yet stage creation
aborts (`none`) instead of creating the module. -/
theorem c4_counterexample :
    compile_shader_module warnEnv ShaderStage.Vertex "code" =
      some ({ result := 0, bytecode := [7, 8],
              error_message := "warning: something" },
            [CompileEvent.copyBytecode [7, 8],
             CompileEvent.releaseBytecodeBlob,
             CompileEvent.captureDiagnostic "warning: something",
             CompileEvent.releaseDiagnosticBlob]) ∧
    (0 : Int) ≤ 0 ∧
    ("warning: something" : String) ≠ "" ∧
    create_shader_module warnEnv
      { stage := ShaderStage.Vertex,
        source_type := ShaderSourceType.SourceCode,
        source_code := "code" } = none :=
  ⟨rfl, le_refl 0, by decide, rfl⟩

/-- C4 amended: any non-empty diagnostic text from the stage compiler is
fatal for stage creation, even alongside a success status. Stage creation
proceeds only when the diagnostic text is empty; in that case a failing
status aborts construction and a success status proceeds to native stage
creation normally. -/
theorem c4_amended_nonempty_diagnostics_fatal (env : RenderEnv)
    (desc : ShaderStageDescription) (res : ShaderCompilationResult)
    (tr : List CompileEvent)
    (ht : desc.source_type = ShaderSourceType.SourceCode)
    (hne : desc.source_code ≠ "")
    (hc : compile_shader_module env desc.stage desc.source_code =
      some (res, tr)) :
    (res.error_message ≠ "" → create_shader_module env desc = none) ∧
    (res.error_message = "" → res.result < 0 →
      create_shader_module env desc = none) ∧
    (res.error_message = "" → 0 ≤ res.result →
      create_shader_module env desc =
        create_native_stage env desc.stage res.bytecode
          res.bytecode.length) := by
  have hif := create_shader_module_sourcecode env desc res tr ht hne hc
  refine ⟨fun hmsg => ?_, fun hmsg hfail => ?_, fun hmsg hok => ?_⟩
  · rw [hif, if_pos hmsg]
  · rw [hif, if_neg (by simp [hmsg]), if_pos (not_le.mpr hfail)]
  · rw [hif, if_neg (by simp [hmsg]), if_neg (by simpa using hok)]

/-- Witness for the amended C4 at a concrete clean-compiling backend. -/
theorem c4_witness :
    (("" : String) ≠ "" →
      create_shader_module okEnv
        { stage := ShaderStage.Vertex,
          source_type := ShaderSourceType.SourceCode,
          source_code := "code" } = none) ∧
    (("" : String) = "" → (0 : Int) < 0 →
      create_shader_module okEnv
        { stage := ShaderStage.Vertex,
          source_type := ShaderSourceType.SourceCode,
          source_code := "code" } = none) ∧
    (("" : String) = "" → (0 : Int) ≤ 0 →
      create_shader_module okEnv
        { stage := ShaderStage.Vertex,
          source_type := ShaderSourceType.SourceCode,
          source_code := "code" } =
        create_native_stage okEnv ShaderStage.Vertex [7, 8]
          ([7, 8] : List Nat).length) :=
  c4_amended_nonempty_diagnostics_fatal okEnv
    { stage := ShaderStage.Vertex,
      source_type := ShaderSourceType.SourceCode, source_code := "code" }
    { result := 0, bytecode := [7, 8], error_message := "" } _
    rfl (by decide) rfl

/-! ### Claim C8: compilation failure aborts program construction -/

/-- The first description of a given stage kind in a description list
(the one the constructor's first-occurrence-wins policy selects). -/
def firstDescOfKind : List ShaderStageDescription → ShaderStage →
    Option ShaderStageDescription
  | [], _ => none
  | d :: rest, k => if d.stage = k then some d else firstDescOfKind rest k

theorem create_native_stage_stage (env : RenderEnv) (stage : ShaderStage)
    (data : List Nat) (size : Nat) (m : ShaderModule)
    (h : create_native_stage env stage data size = some m) :
    m.stage = stage := by
  cases stage with
  | Vertex =>
    rw [create_native_stage] at h
    split at h
    · have hm := Option.some.inj h
      subst hm
      rfl
    · cases h
  | Fragment =>
    rw [create_native_stage] at h
    split at h
    · have hm := Option.some.inj h
      subst hm
      rfl
    · cases h
  | OutOfEnum n =>
    have hm := Option.some.inj h
    subst hm
    rfl

theorem create_shader_module_eq_some_native (env : RenderEnv)
    (desc : ShaderStageDescription) (m : ShaderModule)
    (h : create_shader_module env desc = some m) :
    ∃ data size, create_native_stage env desc.stage data size = some m := by
  rw [create_shader_module] at h
  cases hr : resolve_stage_payload env desc with
  | none =>
    rw [hr] at h
    simp at h
  | some pair =>
    obtain ⟨data, size⟩ := pair
    rw [hr] at h
    exact ⟨data, size, h⟩

theorem create_shader_module_stage (env : RenderEnv)
    (desc : ShaderStageDescription) (m : ShaderModule)
    (h : create_shader_module env desc = some m) : m.stage = desc.stage := by
  obtain ⟨data, size, hst⟩ := create_shader_module_eq_some_native env desc m h
  exact create_native_stage_stage env desc.stage data size m hst

theorem create_shader_module_fail_status (env : RenderEnv)
    (desc : ShaderStageDescription) (res : ShaderCompilationResult)
    (tr : List CompileEvent)
    (ht : desc.source_type = ShaderSourceType.SourceCode)
    (hc : compile_shader_module env desc.stage desc.source_code =
      some (res, tr))
    (hfail : res.result < 0) :
    create_shader_module env desc = none := by
  by_cases hne : desc.source_code = ""
  · simp [create_shader_module, resolve_stage_payload, ht, hne]
  · rw [create_shader_module_sourcecode env desc res tr ht hne hc]
    by_cases hmsg : res.error_message = ""
    · rw [if_neg (by simp [hmsg]), if_pos (not_le.mpr hfail)]
    · rw [if_pos hmsg]

/-- If the first description of some kind is reached by the constructor
loop (its kind not yet among the accumulated modules) and its creation
aborts fatally, the whole construction aborts. -/
theorem constructModules_abort (env : RenderEnv)
    (desc : ShaderStageDescription) :
    ∀ (stages : List ShaderStageDescription) (acc : List ShaderModule),
      desc ∈ stages →
      firstDescOfKind stages desc.stage = some desc →
      desc.stage ∉ acc.map ShaderModule.stage →
      create_shader_module env desc = none →
      constructModules env stages acc = none := by
  intro stages
  induction stages with
  | nil => intro acc hmem; cases hmem
  | cons d rest ih =>
    intro acc hmem hfirst hnotin hcreate
    by_cases hstage : d.stage = desc.stage
    · rw [firstDescOfKind, if_pos hstage] at hfirst
      have hd := Option.some.inj hfirst
      subst hd
      rw [constructModules, if_neg]
      · rw [hcreate]
      · rintro ⟨m, hm, hms⟩
        exact hnotin (List.mem_map.mpr ⟨m, hm, hms⟩)
    · rw [firstDescOfKind, if_neg hstage] at hfirst
      have hmem' : desc ∈ rest := by
        rcases List.mem_cons.mp hmem with h | h
        · exact absurd (congrArg ShaderStageDescription.stage h.symm) hstage
        · exact h
      rw [constructModules]
      by_cases hskip : ∃ m ∈ acc, m.stage = d.stage
      · rw [if_pos hskip]
        exact ih acc hmem' hfirst hnotin hcreate
      · rw [if_neg hskip]
        cases hcd : create_shader_module env d with
        | none => rfl
        | some m =>
          apply ih (acc ++ [m]) hmem' hfirst ?_ hcreate
          rw [List.map_append, List.mem_append]
          rintro (h | h)
          · exact hnotin h
          · have hms : m.stage = d.stage :=
              create_shader_module_stage env d m hcd
            simp only [List.map_cons, List.map_nil, List.mem_singleton] at h
            exact hstage (hms ▸ h.symm)

/-- C8: for every source-text stage that is the first of its kind, a
failing compilation status makes program construction abort fatally
(`none`): the failure is never silently swallowed and no `ShaderProgram`
built from a failed compilation is ever exposed to callers. -/
theorem c8_compile_failure_aborts_construction (env : RenderEnv)
    (d : ShaderDescription) (desc : ShaderStageDescription)
    (res : ShaderCompilationResult) (tr : List CompileEvent)
    (hmem : desc ∈ d.stages)
    (hfirst : firstDescOfKind d.stages desc.stage = some desc)
    (ht : desc.source_type = ShaderSourceType.SourceCode)
    (hc : compile_shader_module env desc.stage desc.source_code =
      some (res, tr))
    (hfail : res.result < 0) :
    D3D11Shader_construct env d = none := by
  apply constructModules_abort env desc d.stages [] hmem hfirst (by simp)
  exact create_shader_module_fail_status env desc res tr ht hc hfail

/-- Witness for C8 at a concrete failing backend. -/
theorem c8_witness :
    D3D11Shader_construct failEnv
      { stages := [{ stage := ShaderStage.Vertex,
                     source_type := ShaderSourceType.SourceCode,
                     source_code := "bad" }] } = none :=
  c8_compile_failure_aborts_construction failEnv
    { stages := [{ stage := ShaderStage.Vertex,
                   source_type := ShaderSourceType.SourceCode,
                   source_code := "bad" }] }
    { stage := ShaderStage.Vertex,
      source_type := ShaderSourceType.SourceCode, source_code := "bad" }
    { result := -1, bytecode := [], error_message := "" } []
    (by simp) rfl rfl rfl (by decide)

/-! ### Claim C3: destruction releases each handle exactly once -/

theorem destructor_events_eq (modules : List ShaderModule) :
    (D3D11Shader_destructor modules).1 =
      (modules.filterMap ShaderModule.handle).map DestroyEvent.release := by
  induction modules with
  | nil => rfl
  | cons m rest ih =>
    cases hm : m.handle <;>
      simp only [D3D11Shader_destructor, List.filterMap_cons, hm,
        Option.map_some, Option.map_none, List.map_cons] at ih ⊢ <;>
      simp [ih]

theorem destroyEvent_release_injective :
    Function.Injective DestroyEvent.release := by
  intro a b h
  cases h
  rfl

/-- C3: destroying a `ShaderProgram` emits exactly one release event per
owned (non-null) native handle — under the invariant that the stored
handles are pairwise distinct, each handle is released exactly once and
never twice — and then clears the module storage; running the
destruction path again on the cleared storage releases nothing. -/
theorem c3_destruction_releases_exactly_once (modules : List ShaderModule)
    (hnodup : (modules.filterMap ShaderModule.handle).Nodup) :
    (∀ h ∈ modules.filterMap ShaderModule.handle,
      (D3D11Shader_destructor modules).1.count (DestroyEvent.release h) = 1) ∧
    (D3D11Shader_destructor modules).2 = [] ∧
    (D3D11Shader_destructor (D3D11Shader_destructor modules).2).1 = [] := by
  refine ⟨?_, rfl, rfl⟩
  intro h hmem
  rw [destructor_events_eq]
  rw [List.count_map_of_injective _ DestroyEvent.release
    destroyEvent_release_injective]
  exact List.count_eq_one_of_mem hnodup hmem

/-- Witness for C3 at a concrete two-module program. -/
theorem c3_witness :
    (∀ h ∈ ([{ stage := ShaderStage.Vertex, handle := some 11 },
             { stage := ShaderStage.Fragment, handle := some 12 }] :
              List ShaderModule).filterMap ShaderModule.handle,
      (D3D11Shader_destructor
          [{ stage := ShaderStage.Vertex, handle := some 11 },
           { stage := ShaderStage.Fragment, handle := some 12 }]).1.count
        (DestroyEvent.release h) = 1) ∧
    (D3D11Shader_destructor
        [{ stage := ShaderStage.Vertex, handle := some 11 },
         { stage := ShaderStage.Fragment, handle := some 12 }]).2 = [] ∧
    (D3D11Shader_destructor
        (D3D11Shader_destructor
          [{ stage := ShaderStage.Vertex, handle := some 11 },
           { stage := ShaderStage.Fragment, handle := some 12 }]).2).1 = [] :=
  c3_destruction_releases_exactly_once
    [{ stage := ShaderStage.Vertex, handle := some 11 },
     { stage := ShaderStage.Fragment, handle := some 12 }] (by decide)

/-! ### Claims C1 and C2: constructor deduplication and lookup -/

/-- Specification-side view of the constructor's skip policy: the
subsequence of descriptions that are the first occurrence of their stage
kind, given the kinds already seen. -/
def firstHits : List ShaderStageDescription → List ShaderStage →
    List ShaderStageDescription
  | [], _ => []
  | d :: rest, seen =>
    if d.stage ∈ seen then firstHits rest seen
    else d :: firstHits rest (d.stage :: seen)

/-- Creating one module per description, in order, aborting on the first
fatal creation. -/
def createAll (env : RenderEnv) :
    List ShaderStageDescription → Option (List ShaderModule)
  | [] => some []
  | d :: rest =>
    match create_shader_module env d with
    | none => none
    | some m =>
      match createAll env rest with
      | none => none
      | some ms => some (m :: ms)

theorem firstHits_congr :
    ∀ (stages : List ShaderStageDescription) (seen₁ seen₂ : List ShaderStage),
      (∀ k, k ∈ seen₁ ↔ k ∈ seen₂) →
      firstHits stages seen₁ = firstHits stages seen₂ := by
  intro stages
  induction stages with
  | nil => intro _ _ _; rfl
  | cons d rest ih =>
    intro seen₁ seen₂ hiff
    by_cases hin : d.stage ∈ seen₁
    · rw [firstHits, if_pos hin, firstHits, if_pos ((hiff d.stage).mp hin)]
      exact ih seen₁ seen₂ hiff
    · rw [firstHits, if_neg hin, firstHits,
        if_neg (fun hh => hin ((hiff d.stage).mpr hh))]
      refine congrArg (d :: ·) (ih _ _ fun k => ?_)
      simp only [List.mem_cons]
      exact or_congr Iff.rfl (hiff k)

theorem firstHits_not_seen :
    ∀ (stages : List ShaderStageDescription) (seen : List ShaderStage)
      (d : ShaderStageDescription), d ∈ firstHits stages seen →
      d.stage ∉ seen := by
  intro stages
  induction stages with
  | nil => intro seen d h; cases h
  | cons x rest ih =>
    intro seen d h
    by_cases hin : x.stage ∈ seen
    · rw [firstHits, if_pos hin] at h
      exact ih seen d h
    · rw [firstHits, if_neg hin] at h
      rcases List.mem_cons.mp h with h | h
      · exact h ▸ hin
      · intro hd
        exact ih _ d h (List.mem_cons_of_mem _ hd)

theorem firstHits_nodup :
    ∀ (stages : List ShaderStageDescription) (seen : List ShaderStage),
      ((firstHits stages seen).map ShaderStageDescription.stage).Nodup := by
  intro stages
  induction stages with
  | nil => intro seen; exact List.nodup_nil
  | cons x rest ih =>
    intro seen
    by_cases hin : x.stage ∈ seen
    · rw [firstHits, if_pos hin]
      exact ih seen
    · rw [firstHits, if_neg hin, List.map_cons, List.nodup_cons]
      refine ⟨fun hmem => ?_, ih _⟩
      obtain ⟨d, hd, hds⟩ := List.mem_map.mp hmem
      exact firstHits_not_seen rest _ d hd (hds ▸ List.mem_cons_self _ _)

theorem firstHits_mem_iff :
    ∀ (stages : List ShaderStageDescription) (seen : List ShaderStage)
      (k : ShaderStage),
      k ∈ (firstHits stages seen).map ShaderStageDescription.stage ↔
        (k ∈ stages.map ShaderStageDescription.stage ∧ k ∉ seen) := by
  intro stages
  induction stages with
  | nil => intro seen k; simp [firstHits]
  | cons x rest ih =>
    intro seen k
    by_cases hin : x.stage ∈ seen
    · rw [firstHits, if_pos hin, ih, List.map_cons]
      constructor
      · rintro ⟨hk, hns⟩
        exact ⟨List.mem_cons_of_mem _ hk, hns⟩
      · rintro ⟨hk, hns⟩
        rcases List.mem_cons.mp hk with hk | hk
        · exact absurd (hk ▸ hin) hns
        · exact ⟨hk, hns⟩
    · rw [firstHits, if_neg hin, List.map_cons, List.map_cons]
      simp only [List.mem_cons, ih, List.mem_cons]
      constructor
      · rintro (hk | ⟨hk, hns⟩)
        · exact ⟨Or.inl hk, hk ▸ hin⟩
        · exact ⟨Or.inr hk, fun hs => hns (Or.inr hs)⟩
      · rintro ⟨hk | hk, hns⟩
        · exact Or.inl hk
        · by_cases hx : k = x.stage
          · exact Or.inl hx
          · exact Or.inr ⟨hk, fun hs => by
              rcases hs with hs | hs
              · exact hx hs
              · exact hns hs⟩

theorem firstHits_subset :
    ∀ (stages : List ShaderStageDescription) (seen : List ShaderStage)
      (d : ShaderStageDescription), d ∈ firstHits stages seen → d ∈ stages := by
  intro stages
  induction stages with
  | nil => intro seen d h; cases h
  | cons x rest ih =>
    intro seen d h
    by_cases hin : x.stage ∈ seen
    · rw [firstHits, if_pos hin] at h
      exact List.mem_cons_of_mem _ (ih seen d h)
    · rw [firstHits, if_neg hin] at h
      rcases List.mem_cons.mp h with h | h
      · exact h ▸ List.mem_cons_self _ _
      · exact List.mem_cons_of_mem _ (ih _ d h)

theorem firstHits_firstDesc :
    ∀ (stages : List ShaderStageDescription) (seen : List ShaderStage)
      (d : ShaderStageDescription), d ∈ firstHits stages seen →
      firstDescOfKind stages d.stage = some d := by
  intro stages
  induction stages with
  | nil => intro seen d h; cases h
  | cons x rest ih =>
    intro seen d h
    by_cases hin : x.stage ∈ seen
    · rw [firstHits, if_pos hin] at h
      have hne : x.stage ≠ d.stage := fun he =>
        firstHits_not_seen rest seen d h (he ▸ hin)
      rw [firstDescOfKind, if_neg hne]
      exact ih seen d h
    · rw [firstHits, if_neg hin] at h
      rcases List.mem_cons.mp h with h | h
      · subst h
        rw [firstDescOfKind, if_pos rfl]
      · have hns := firstHits_not_seen rest _ d h
        have hne : x.stage ≠ d.stage := fun he =>
          hns (he ▸ List.mem_cons_self _ _)
        rw [firstDescOfKind, if_neg hne]
        exact ih _ d h

theorem createAll_map_stage (env : RenderEnv) :
    ∀ (descs : List ShaderStageDescription) (mods : List ShaderModule),
      createAll env descs = some mods →
      mods.map ShaderModule.stage =
        descs.map ShaderStageDescription.stage := by
  intro descs
  induction descs with
  | nil =>
    intro mods h
    have hm := Option.some.inj h
    subst hm
    rfl
  | cons d rest ih =>
    intro mods h
    rw [createAll] at h
    cases hcd : create_shader_module env d with
    | none => rw [hcd] at h; cases h
    | some m =>
      rw [hcd] at h
      cases hall : createAll env rest with
      | none => rw [hall] at h; cases h
      | some ms =>
        rw [hall] at h
        have hm := Option.some.inj h
        subst hm
        rw [List.map_cons, List.map_cons,
          create_shader_module_stage env d m hcd, ih ms hall]

theorem createAll_mem (env : RenderEnv) :
    ∀ (descs : List ShaderStageDescription) (mods : List ShaderModule)
      (m : ShaderModule), createAll env descs = some mods → m ∈ mods →
      ∃ d ∈ descs, create_shader_module env d = some m := by
  intro descs
  induction descs with
  | nil =>
    intro mods m h hm
    have hmods := Option.some.inj h
    subst hmods
    cases hm
  | cons d rest ih =>
    intro mods m h hm
    rw [createAll] at h
    cases hcd : create_shader_module env d with
    | none => rw [hcd] at h; cases h
    | some m' =>
      rw [hcd] at h
      cases hall : createAll env rest with
      | none => rw [hall] at h; cases h
      | some ms =>
        rw [hall] at h
        have hmods := Option.some.inj h
        subst hmods
        rcases List.mem_cons.mp hm with hm | hm
        · exact ⟨d, List.mem_cons_self _ _, hm ▸ hcd⟩
        · obtain ⟨d', hd', hcd'⟩ := ih ms m hall hm
          exact ⟨d', List.mem_cons_of_mem _ hd', hcd'⟩

/-- The constructor loop is exactly: create one module per
first-occurrence description (given the kinds already in the
accumulator), appended to the accumulator. -/
theorem constructModules_eq_createAll (env : RenderEnv) :
    ∀ (stages : List ShaderStageDescription) (acc : List ShaderModule),
      constructModules env stages acc =
        (createAll env
          (firstHits stages (acc.map ShaderModule.stage))).map
          (fun ms => acc ++ ms) := by
  intro stages
  induction stages with
  | nil =>
    intro acc
    simp [constructModules, firstHits, createAll]
  | cons d rest ih =>
    intro acc
    by_cases hin : d.stage ∈ acc.map ShaderModule.stage
    · have hex : ∃ m ∈ acc, m.stage = d.stage := by
        obtain ⟨m, hm, hms⟩ := List.mem_map.mp hin
        exact ⟨m, hm, hms⟩
      rw [constructModules, if_pos hex, firstHits, if_pos hin]
      exact ih acc
    · have hex : ¬ ∃ m ∈ acc, m.stage = d.stage := by
        rintro ⟨m, hm, hms⟩
        exact hin (List.mem_map.mpr ⟨m, hm, hms⟩)
      rw [constructModules, if_neg hex, firstHits, if_neg hin]
      cases hcd : create_shader_module env d with
      | none => rw [createAll, hcd]; rfl
      | some m =>
        rw [createAll, hcd]
        show constructModules env rest (acc ++ [m]) =
          Option.map (fun ms => acc ++ ms)
            (match createAll env (firstHits rest
                (d.stage :: acc.map ShaderModule.stage)) with
              | none => none
              | some ms => some (m :: ms))
        rw [ih (acc ++ [m])]
        have hseen : firstHits rest ((acc ++ [m]).map ShaderModule.stage) =
            firstHits rest (d.stage :: acc.map ShaderModule.stage) := by
          apply firstHits_congr
          intro k
          rw [List.map_append, List.mem_append, List.mem_cons]
          simp only [List.map_cons, List.map_nil, List.mem_singleton]
          rw [create_shader_module_stage env d m hcd]
          exact or_comm
        rw [hseen]
        cases hall :
            createAll env (firstHits rest
              (d.stage :: acc.map ShaderModule.stage)) with
        | none => rfl
        | some ms =>
          simp [List.append_assoc]

theorem construct_eq_createAll (env : RenderEnv) (d : ShaderDescription)
    (mods : List ShaderModule)
    (hc : D3D11Shader_construct env d = some mods) :
    createAll env (firstHits d.stages []) = some mods := by
  rw [D3D11Shader_construct, constructModules_eq_createAll] at hc
  simp only [List.map_nil] at hc
  cases hall : createAll env (firstHits d.stages []) with
  | none => rw [hall] at hc; cases hc
  | some ms =>
    rw [hall] at hc
    simp only [Option.map_some', List.nil_append] at hc
    rw [hc]

/-- C1: a successful construction produces exactly one module per
distinct stage kind appearing in the description (no two share a kind,
the kind sets coincide, and the module count is the number of distinct
kinds), and each module is built from the first description of its kind
in input order — later descriptions of an already-present kind are
skipped. -/
theorem c1_construction_first_occurrence_wins (env : RenderEnv)
    (d : ShaderDescription) (mods : List ShaderModule)
    (hc : D3D11Shader_construct env d = some mods) :
    (mods.map ShaderModule.stage).Nodup ∧
    (∀ k, k ∈ mods.map ShaderModule.stage ↔
      k ∈ d.stages.map ShaderStageDescription.stage) ∧
    mods.length =
      (d.stages.map ShaderStageDescription.stage).dedup.length ∧
    (∀ m ∈ mods, ∃ desc, firstDescOfKind d.stages m.stage = some desc ∧
      create_shader_module env desc = some m) := by
  have hall := construct_eq_createAll env d mods hc
  have hmap := createAll_map_stage env _ mods hall
  have hnodup : (mods.map ShaderModule.stage).Nodup := by
    rw [hmap]
    exact firstHits_nodup _ _
  have hiff : ∀ k, k ∈ mods.map ShaderModule.stage ↔
      k ∈ d.stages.map ShaderStageDescription.stage := by
    intro k
    rw [hmap, firstHits_mem_iff]
    simp
  refine ⟨hnodup, hiff, ?_, ?_⟩
  · have hperm : (mods.map ShaderModule.stage).Perm
        ((d.stages.map ShaderStageDescription.stage).dedup) := by
      rw [List.perm_ext_iff_of_nodup hnodup (List.nodup_dedup _)]
      intro k
      rw [List.mem_dedup]
      exact hiff k
    have hlen := hperm.length_eq
    rwa [List.length_map] at hlen
  · intro m hm
    obtain ⟨desc, hdesc, hcd⟩ := createAll_mem env _ mods m hall hm
    refine ⟨desc, ?_, hcd⟩
    rw [create_shader_module_stage env desc m hcd]
    exact firstHits_firstDesc d.stages [] desc hdesc

/-- A three-stage description with a duplicated Vertex stage: the spec's
duplicate-handling example. -/
def dupDescription : ShaderDescription :=
  { stages := [
      { stage := ShaderStage.Vertex,
        source_type := ShaderSourceType.SourceCode, source_code := "srcA" },
      { stage := ShaderStage.Vertex,
        source_type := ShaderSourceType.SourceCode, source_code := "srcB" },
      { stage := ShaderStage.Fragment,
        source_type := ShaderSourceType.SourceCode, source_code := "srcC" }] }

/-- The modules `okEnv` builds for `dupDescription`. -/
def dupModules : List ShaderModule :=
  [{ stage := ShaderStage.Vertex, handle := some 11 },
   { stage := ShaderStage.Fragment, handle := some 12 }]

/-- Witness for C1 at the spec's duplicate-handling example. -/
theorem c1_witness :
    (dupModules.map ShaderModule.stage).Nodup ∧
    (∀ k, k ∈ dupModules.map ShaderModule.stage ↔
      k ∈ dupDescription.stages.map ShaderStageDescription.stage) ∧
    dupModules.length =
      (dupDescription.stages.map ShaderStageDescription.stage).dedup.length ∧
    (∀ m ∈ dupModules, ∃ desc,
      firstDescOfKind dupDescription.stages m.stage = some desc ∧
      create_shader_module okEnv desc = some m) :=
  c1_construction_first_occurrence_wins okEnv dupDescription dupModules rfl

theorem get_shader_module_of_mem :
    ∀ (mods : List ShaderModule) (m : ShaderModule),
      (mods.map ShaderModule.stage).Nodup → m ∈ mods →
      get_shader_module mods m.stage = m.handle := by
  intro mods
  induction mods with
  | nil => intro m _ hm; cases hm
  | cons x rest ih =>
    intro m hnodup hm
    rcases List.mem_cons.mp hm with hm | hm
    · subst hm
      rw [get_shader_module, if_pos rfl]
    · rw [List.map_cons, List.nodup_cons] at hnodup
      have hne : x.stage ≠ m.stage := fun he =>
        hnodup.1 (he ▸ List.mem_map.mpr ⟨m, hm, rfl⟩)
      rw [get_shader_module, if_neg hne]
      exact ih m hnodup.2 hm

theorem get_shader_module_absent :
    ∀ (mods : List ShaderModule) (k : ShaderStage),
      (∀ m ∈ mods, m.stage ≠ k) → get_shader_module mods k = none := by
  intro mods
  induction mods with
  | nil => intro k _; rfl
  | cons x rest ih =>
    intro k h
    rw [get_shader_module, if_neg (h x (List.mem_cons_self _ _))]
    exact ih k fun m hm => h m (List.mem_cons_of_mem _ hm)

theorem create_native_stage_handle_isSome (env : RenderEnv)
    (hwf : env.WellFormedDevice) (stage : ShaderStage) (data : List Nat)
    (size : Nat) (m : ShaderModule)
    (hset : stage = ShaderStage.Vertex ∨ stage = ShaderStage.Fragment)
    (h : create_native_stage env stage data size = some m) :
    m.handle.isSome := by
  rcases hset with hs | hs <;> subst hs
  · simp only [create_native_stage] at h
    split at h
    case isTrue hle =>
      rw [← Option.some.inj h]
      exact hwf.1 data size hle
    case isFalse => cases h
  · simp only [create_native_stage] at h
    split at h
    case isTrue hle =>
      rw [← Option.some.inj h]
      exact hwf.2 data size hle
    case isFalse => cases h

theorem construct_handle_isSome (env : RenderEnv) (d : ShaderDescription)
    (mods : List ShaderModule) (hwf : env.WellFormedDevice)
    (hclosed : ∀ desc ∈ d.stages, desc.stage = ShaderStage.Vertex ∨
      desc.stage = ShaderStage.Fragment)
    (hc : D3D11Shader_construct env d = some mods) :
    ∀ m ∈ mods, m.handle.isSome := by
  intro m hm
  obtain ⟨desc, hdesc, hcd⟩ :=
    createAll_mem env _ mods m (construct_eq_createAll env d mods hc) hm
  obtain ⟨data, size, hnat⟩ :=
    create_shader_module_eq_some_native env desc m hcd
  exact create_native_stage_handle_isSome env hwf desc.stage data size m
    (hclosed desc (firstHits_subset _ _ _ hdesc)) hnat

/-- C2: after a successful construction (descriptions drawn from the
closed stage enumeration, device creation calls honouring their
documented contract), `get_shader_module` returns, for every stage kind
with a stored module, that module's non-null handle, and for every stage
kind with no stored module the absent indicator `none`. The lookup is a
pure function, so repeated calls return the same result. -/
theorem c2_lookup_correctness (env : RenderEnv) (d : ShaderDescription)
    (mods : List ShaderModule) (hwf : env.WellFormedDevice)
    (hclosed : ∀ desc ∈ d.stages, desc.stage = ShaderStage.Vertex ∨
      desc.stage = ShaderStage.Fragment)
    (hc : D3D11Shader_construct env d = some mods) :
    (∀ m ∈ mods, ∃ h0, m.handle = some h0 ∧
      get_shader_module mods m.stage = some h0) ∧
    (∀ k, (∀ m ∈ mods, m.stage ≠ k) → get_shader_module mods k = none) := by
  have hnodup : (mods.map ShaderModule.stage).Nodup := by
    rw [createAll_map_stage env _ mods (construct_eq_createAll env d mods hc)]
    exact firstHits_nodup _ _
  constructor
  · intro m hm
    obtain ⟨h0, hh0⟩ := Option.isSome_iff_exists.mp
      (construct_handle_isSome env d mods hwf hclosed hc m hm)
    refine ⟨h0, hh0, ?_⟩
    rw [get_shader_module_of_mem mods m hnodup hm, hh0]
  · intro k hk
    exact get_shader_module_absent mods k hk

/-- Witness for C2 at the concrete duplicate-handling example. -/
theorem c2_witness :
    (∀ m ∈ dupModules, ∃ h0, m.handle = some h0 ∧
      get_shader_module dupModules m.stage = some h0) ∧
    (∀ k, (∀ m ∈ dupModules, m.stage ≠ k) →
      get_shader_module dupModules k = none) :=
  c2_lookup_correctness okEnv dupDescription dupModules
    ⟨fun _ _ _ => rfl, fun _ _ _ => rfl⟩ (by decide) rfl

end CaveGame
